import Mathlib

/-!
Verification of the ELM motif workflow of `gget` (`gget/gget_elm.py`).

The Python data frames are embedded shallowly: a data-frame row becomes a
Lean structure, a data frame a list of rows, pandas `NaN` in a numeric
column an `Option Int` that is `none`, and a fallible step an
`Except`/`Option` value.  Machine floats never carry a property checked
here, so coordinate columns are modelled as `Int`.  External collaborators
(the DIAMOND binary, the UniProt sequence service) are parameters of the
functions that invoke them.
-/

namespace GgetElm

/-! ## Pandas comparison helpers

A pandas comparison between a number and `NaN` is `False`; `none` plays the
role of `NaN`, so both ordered comparisons return `false` on `none`. -/

/-- `a >= b` in pandas semantics where `b` may be `NaN` (`none`). -/
def geOptB (a : Int) : Option Int → Bool
  | none => false
  | some b => decide (a ≥ b)

/-- `a <= b` in pandas semantics where `b` may be `NaN` (`none`). -/
def leOptB (a : Int) : Option Int → Bool
  | none => false
  | some b => decide (a ≤ b)

/-! ## Python values

`gget_elm.py` line 211 compares the `uniprot_id` column with the Python
builtin function `id` (not with the input string).  A Python `==` between a
string and a builtin function object is `False`; the embedding keeps both
kinds of value in one type so the comparison can be written as the source
writes it. -/

/-- A Python value as far as the comparison on line 211 needs: a string or a
builtin function object. -/
inductive PyVal where
  | str (s : String)
  | builtinFn (n : String)
  deriving Repr, DecidableEq

/-- Python `==` on `PyVal`: strings compare by contents; a string never
equals a builtin function object. -/
def pyValEq : PyVal → PyVal → Bool
  | .str a, .str b => a == b
  | .builtinFn a, .builtinFn b => a == b
  | _, _ => false

/-- The Python builtin function `id`, as a value. -/
def pyBuiltinId : PyVal := .builtinFn "id"

/-! ## Python `str.upper` on the amino-acid alphabet

Line 191 uppercases the raw input sequence.  The table below models
`str.upper` on the ASCII letters, the only characters a protein sequence
(or a mistyped one the validator then warns about) is compared against. -/

/-- The lower-case ASCII letters paired with their upper-case forms. -/
def lowerUpperPairs : List (Char × Char) :=
  [('a', 'A'), ('b', 'B'), ('c', 'C'), ('d', 'D'), ('e', 'E'), ('f', 'F'),
   ('g', 'G'), ('h', 'H'), ('i', 'I'), ('j', 'J'), ('k', 'K'), ('l', 'L'),
   ('m', 'M'), ('n', 'N'), ('o', 'O'), ('p', 'P'), ('q', 'Q'), ('r', 'R'),
   ('s', 'S'), ('t', 'T'), ('u', 'U'), ('v', 'V'), ('w', 'W'), ('x', 'X'),
   ('y', 'Y'), ('z', 'Z')]

/-- `str.upper` on one character (ASCII fragment). -/
def pyUpperChar (c : Char) : Char :=
  match lowerUpperPairs.find? (fun p => p.1 == c) with
  | some p => p.2
  | none => c

/-- `sequence.upper()` (ASCII fragment). -/
def pyUpper (s : String) : String := String.mk (s.data.map pyUpperChar)

/-! ## Row types (the data model)

Column names follow the source's frames; `End` is a Lean keyword, so the
field is `end_`. -/

/-- A row of `elm_classes.tsv` (`MotifClass`): lines 125-130 read
`Accession`, `ELMIdentifier`, `FunctionalSiteName`, `Description`, `Regex`,
`Probability`. -/
structure MotifClassRow where
  accession : String
  elmIdentifier : String
  functionalSiteName : String
  description : String
  regex : String
  probability : String
  deriving Repr, DecidableEq

/-- A row of `elm_instances.tsv` (`MotifInstance`): the fields the workflow
touches (`Accession`, `Accessions`, `ELMIdentifier`, the ortholog
`Start`/`End` coordinates, `Methods`, `ProteinName`, `Organism`). -/
structure MotifInstanceRow where
  accession : String
  accessions : String
  elmIdentifier : String
  start : Int
  end_ : Int
  methods : String
  proteinName : String
  organism : String
  deriving Repr, DecidableEq

/-- A row of DIAMOND's tab-separated output, parsed on line 94 with the
column list given there (the two float columns `e-value` and `bit_score`
carry no verified property and are kept as strings). -/
structure DiamondRow where
  query_accession : String
  target_accession : String
  perIdent : Int
  length : Int
  mismatches : Int
  gap_openings : Int
  query_start : Int
  query_end : Int
  target_start : Int
  target_end : Int
  e_value : String
  bit_score : String
  deriving Repr, DecidableEq

/-- A row as the function `motif_in_query` (lines 34-35) consumes it: the
instance coordinates under the labels `Start`/`End` and the alignment
window columns, a pandas `NaN` cell modelled as `none`.  (Line 81's
`reindex` in fact drops the `Start`/`End` columns from the merged frame —
see `change_column` — so the program never successfully applies the
function to a non-empty frame; the function itself is still exactly this
row predicate.) -/
structure OrthoRow where
  uniprotID : String
  elmIdentifier : String
  start : Int
  end_ : Int
  target_start : Option Int
  target_end : Option Int
  deriving Repr, DecidableEq

/-- Line 80: the column list `change_column` that line 81's
`reindex(columns=change_column)` keeps, transcribed verbatim.  The instance
coordinates were renamed to `Start`/`End` on lines 67-68, and neither name
is in this list, so the reindex drops them (and recreates
`Start in ortholog`/`End in ortholog` as all-`NaN` columns). -/
def change_column : List String :=
  ["UniProt ID", "class_accession", "ELMIdentifier", "FunctionalSiteName",
   "Description", "Regex", "Probability", "Start in ortholog",
   "End in ortholog", "Query Cover", "Per. Ident", "query_start",
   "query_end", "target_start", "target_end", "ProteinName", "Organism",
   "References", "InstanceLogic", "PDB", "#Instances", "#Instances_in_PDB"]

/-- A row of the frame `get_elm_instances` returns after line 81's reindex,
once lines 109-114 have added the alignment columns (all of which are
already listed in `change_column`): the coordinate columns recreated by the
reindex are all-`NaN`, and there is no `Start`/`End` column at all. -/
structure ReindexedRow where
  uniprotID : String
  elmIdentifier : String
  startInOrtholog : Option Int
  endInOrtholog : Option Int
  target_start : Option Int
  target_end : Option Int
  deriving Repr, DecidableEq

/-- A row of the frame `get_uniprot_seqs` returns: the columns
`uniprot_id`, `sequence` and `sequence_length` used on lines 211-212. -/
structure UniProtSeqRow where
  uniprot_id : String
  seq : String
  seq_length : Int
  deriving Repr, DecidableEq

/-- A row of the frame `regex_match` returns after the final `reindex`
(line 170): the surviving class columns, the matched substring, and the
left-joined instance columns (`none` models the all-`NaN` instance side of
an unmatched left join).  The reindex drops the `Start in query` /
`End in query` columns, so the span is not part of the returned row. -/
structure RegexOutRow where
  cls : MotifClassRow
  matched : String
  inst : Option MotifInstanceRow
  deriving Repr, DecidableEq

/-! ## `motif_in_query` (lines 34-35) -/

/-- Line 34-35: `True if (row["Start"] >= row["target_start"]) &
(row["End"] <= row["target_end"]) else False`, with pandas `NaN`
comparisons yielding `False`. -/
def motif_in_query (r : OrthoRow) : Bool :=
  if geOptB r.start r.target_start && leOptB r.end_ r.target_end then true else false

/-! ## `get_elm_instances` (lines 52-82)

Lines 64-82: select the instance rows whose `Accessions` column contains
the UniProt ID (`.str.contains`, substring semantics), then left-merge with
the class frame on `ELMIdentifier`.  The trailing `reindex` reorders and
renames columns but keeps every row, so the embedding returns the joined
rows directly. -/

/-- `df['Accessions'].str.contains(UniProtID)` for a pattern with no regex
metacharacters: substring containment. -/
def strContains (hay needle : String) : Bool := decide (needle.data <:+: hay.data)

/-- One instance row left-merged with the class frame on `ELMIdentifier`
(line 78, `how='left'`): one output row per matching class row, or a single
row with a missing class side when none matches. -/
def left_join_classes (classes : List MotifClassRow) (r : MotifInstanceRow) :
    List (MotifInstanceRow × Option MotifClassRow) :=
  match classes.filter (fun c => c.elmIdentifier == r.elmIdentifier) with
  | [] => [(r, none)]
  | cs => cs.map (fun c => (r, some c))

/-- Lines 64-82 of `get_elm_instances`: the row selection and left join
(the surrounding `elm_files` import check and column renames do not change
which rows come back). -/
def get_elm_instances (uid : String) (instances : List MotifInstanceRow)
    (classes : List MotifClassRow) : List (MotifInstanceRow × Option MotifClassRow) :=
  (instances.filter (fun r => strContains r.accessions uid)).flatMap
    (left_join_classes classes)

/-! ## The regex scanner fragment

`regex_match` calls `re.finditer` on each class's `Regex` pattern.  The
embedding implements Python `re` for the fragment the verified properties
exercise: a pattern is a sequence of atoms, each a literal character or the
wildcard `.` (which matches any character except a newline), scanned left
to right with non-overlapping leftmost-first matches, exactly
`re.finditer`'s semantics on such patterns. -/

/-- One atom of a pattern in the literal/wildcard fragment. -/
inductive Atom where
  | lit (c : Char)
  | dot
  deriving Repr, DecidableEq

/-- Read a pattern string of the fragment: `.` is the wildcard, every other
character a literal. -/
def parsePattern (p : String) : List Atom :=
  p.data.map (fun c => if c = '.' then Atom.dot else Atom.lit c)

/-- Whether one atom matches one character. -/
def atomMatches : Atom → Char → Bool
  | .lit a, c => a == c
  | .dot, c => c != '\n'

/-- Whether the whole atom list matches a prefix of the character list. -/
def matchesHere : List Atom → List Char → Bool
  | [], _ => true
  | _ :: _, [] => false
  | a :: as, c :: cs => atomMatches a c && matchesHere as cs

/-- The scanning loop of `re.finditer`: at each position try the pattern;
on success record the span and resume after it (advancing at least one
character), otherwise advance one character.  `fuel` bounds the recursion
by the input length. -/
def scanAux (atoms : List Atom) : Nat → List Char → Nat → List (Nat × Nat)
  | 0, _, _ => []
  | _, [], _ => []
  | fuel + 1, c :: cs, pos =>
    if matchesHere atoms (c :: cs) then
      (pos, pos + atoms.length) ::
        scanAux atoms fuel (cs.drop (atoms.length - 1)) (pos + max atoms.length 1)
    else
      scanAux atoms fuel cs (pos + 1)

/-- `re.finditer(pattern, s)` (fragment): the list of match spans, 0-based
half-open. -/
def finditer (pattern : String) (s : String) : List (Nat × Nat) :=
  scanAux (parsePattern pattern) s.data.length s.data 0

/-- `s[a:b]` on a string, 0-based half-open. -/
def sliceStr (s : String) (a b : Nat) : String :=
  String.mk ((s.data.drop a).take (b - a))

/-! ## `regex_match` (lines 123-171)

The loop builds a merged frame `df_final` for every `(pattern, match)` pair
but *reassigns* the one local variable each time, so after the loops only
the frame of the last pair processed remains; and when no pattern matched
at all, `df_final` was never assigned and line 167 raises
`UnboundLocalError` — modelled as `none`. -/

/-- Lines 123-171.  Iterates the class patterns in order, collects every
`(class, span)` pair in loop order, and returns the merged frame of the
last pair only (`df_final` is overwritten on each iteration); `none` models
the `UnboundLocalError` of a scan with no match anywhere. -/
def regex_match (classes : List MotifClassRow) (instances : List MotifInstanceRow)
    (sequence : String) : Option (List RegexOutRow) :=
  let pairs := classes.flatMap
    (fun cls => (finditer cls.regex sequence).map (fun sp => (cls, sp)))
  match pairs.getLast? with
  | none => none
  | some (cls, sp) =>
    let matched := sliceStr sequence sp.1 sp.2
    match instances.filter (fun i => i.elmIdentifier == cls.elmIdentifier) with
    | [] => some [⟨cls, matched, none⟩]
    | l => some (l.map (fun i => ⟨cls, matched, some i⟩))

/-! ## `seq_workflow` (lines 85-121)

Per input sequence: write a FASTA file, run DIAMOND, parse
`diamond_out.tsv`.  An alignment with zero hits leaves the output file
empty, `pd.read_csv` raises `EmptyDataError`, `tsv_to_df` (lines 37-49)
logs a warning and returns `None` — and line 97's `len(df_diamond)` then
raises `TypeError: object of type 'NoneType' has no len()`.  The DIAMOND
invocation is a parameter `diamondOut : String → Option (List DiamondRow)`
mapping the (uppercased) sequence to the parsed frame, `none` standing for
the `None` of an empty output file. -/

/-- Python `.split('|')` on a character list (structurally recursive so
concrete instances evaluate). -/
def splitPipeAux : List Char → List Char → List (List Char)
  | [], acc => [acc.reverse]
  | c :: cs, acc =>
    if c = '|' then acc.reverse :: splitPipeAux cs []
    else splitPipeAux cs (c :: acc)

/-- Line 104: `str(df_diamond["target_accession"]).split('|')[1]` — the
printed frame starts with the first row's accession, so the split takes the
text between the first two `|` of that accession
(`sp|Q9UI36|NAME` gives `Q9UI36`). -/
def extract_uniprot_id (target : String) : String :=
  String.mk ((splitPipeAux target.data []).getD 1 [])

/-- The loop body of `seq_workflow` over the zipped `(sequence, length)`
pairs; an `Except.error` models an uncaught Python exception leaving the
function.  After a DIAMOND hit, the merged frame `get_elm_instances`
returns was reindexed to `change_column` on line 81, which carries no
`Start`/`End` column, so line 115's
`df_elm.apply(motif_in_query, axis=1)` evaluates `row["Start"]` and raises
`KeyError: 'Start'` as soon as the frame has a row; an empty merged frame
never calls the function, contributes no rows to the concat on line 117,
and the loop continues with the next sequence. -/
def seq_workflow_go (diamondOut : String → Option (List DiamondRow))
    (instances : List MotifInstanceRow) (classes : List MotifClassRow) :
    List (String × Int) → Except String (List ReindexedRow)
  | [] => .ok []
  | (seq, _len) :: rest =>
    match diamondOut seq with
    | none => .error "TypeError: object of type NoneType has no len"
    | some [] => seq_workflow_go diamondOut instances classes rest
    | some (d0 :: _ds) =>
      match get_elm_instances (extract_uniprot_id d0.target_accession)
          instances classes with
      | [] => seq_workflow_go diamondOut instances classes rest
      | _ :: _ => .error "KeyError: Start"

/-- Lines 85-121: `seq_workflow(sequences, sequence_lengths, verbose)`,
zipping the two argument lists as line 88 does. -/
def seq_workflow (sequences : List String) (sequence_lengths : List Int)
    (diamondOut : String → Option (List DiamondRow))
    (instances : List MotifInstanceRow) (classes : List MotifClassRow) :
    Except String (List ReindexedRow) :=
  seq_workflow_go diamondOut instances classes (sequences.zip sequence_lengths)

/-! ## The identifier-mode fallback (lines 201-223)

When the direct lookup returns no rows, line 208 queries the UniProt
service once with the input identifier, and line 211 selects the rows where
`df_uniprot["uniprot_id"] == id` — `id` being the Python *builtin
function*, not the input string, so the selection is empty for every
response. -/

/-- Line 211: `df_uniprot[df_uniprot["uniprot_id"] == id]["sequence"].values`
with `id` the builtin function. -/
def fallback_aa_seqs (table : List UniProtSeqRow) : List String :=
  (table.filter (fun r => pyValEq (.str r.uniprot_id) pyBuiltinId)).map
    (fun r => r.seq)

/-- What identifier mode does up to the ortholog result: which service
calls were made, the rows of a successful direct lookup, and the outcome of
the sequence workflow re-attempt. -/
structure UniprotModeResult where
  service_calls : List String
  direct_rows : List (MotifInstanceRow × Option MotifClassRow)
  workflow_rows : Except String (List ReindexedRow)
  deriving Repr

/-- Lines 201-223: the identifier (uniprot) branch of `elm`.  A non-empty
direct lookup keeps its rows; an empty one calls the UniProt service with
the identifier, filters the response as line 211 does, takes every
`sequence_length` (line 212), and re-runs `seq_workflow` on the zipped
lists. -/
def elm_uniprot_mode (ident : String) (instances : List MotifInstanceRow)
    (classes : List MotifClassRow)
    (uniprotService : String → List UniProtSeqRow)
    (diamondOut : String → Option (List DiamondRow)) : UniprotModeResult :=
  let df := get_elm_instances ident instances classes
  if df.isEmpty then
    let tbl := uniprotService ident
    let aa_seqs := fallback_aa_seqs tbl
    let seq_lens := tbl.map (fun r => r.seq_length)
    { service_calls := [ident]
      direct_rows := []
      workflow_rows := seq_workflow aa_seqs seq_lens diamondOut instances classes }
  else
    { service_calls := [], direct_rows := df, workflow_rows := .ok [] }

/-! ## Persistence (lines 269-289)

In CSV mode the target path is `ROOT_DIR` joined with `out` (default
`results`).  The frames are written inside a `try:` whose `except OSError:`
handler runs `os.mkdir(path)` — creating the directory only *after* a write
already failed, and never retrying the writes.  The file names passed to
`to_csv` are `ortholog` and `regex_match`, with no extension. -/

/-- Lines 279-285: which file names the CSV branch writes, by emptiness of
the two frames. -/
def write_file_names (nOrtho nRegex : Nat) : List String :=
  if nOrtho > 0 && nRegex > 0 then ["ortholog", "regex_match"]
  else if nOrtho > 0 then ["ortholog"]
  else if nRegex > 0 then ["regex_match"]
  else []

/-- Lines 269-289, CSV branch: the pair (files written, directories
created).  When the target directory is missing, the first `to_csv` raises
`OSError`, the handler creates the directory, and no file is written. -/
def elm_persist_csv (rootDir : String) (out : Option String) (dirExists : Bool)
    (nOrtho nRegex : Nat) : List String × List String :=
  let path := rootDir ++ "/" ++ (match out with | none => "results" | some o => o)
  match write_file_names nOrtho nRegex with
  | [] => ([], [])
  | names =>
    if dirExists then (names.map (fun n => path ++ "/" ++ n), [])
    else ([], [path])

/-! ## Sequence mode of `elm` (lines 188-248) -/

/-- Line 189: the accepted amino-acid letters (the source's string,
duplicates included). -/
def amino_acids : List Char := "ARNDCQEGHILKMFPSTWYVBZXBJZ".data

/-- Line 194: `set(sequence) <= amino_acids`. -/
def valid_sequence (s : String) : Bool := s.data.all (fun c => amino_acids.contains c)

/-- What sequence mode produces: the validation-warning flag, the ortholog
frame (or the exception that left `seq_workflow`), and the regex frame (or
the scanner's `UnboundLocalError` as `none`). -/
structure ElmSeqResult where
  warned_invalid : Bool
  orthologs : Except String (List ReindexedRow)
  regex : Option (List RegexOutRow)
  deriving Repr

/-- Lines 188-248, sequence (non-identifier) mode: uppercase the input
(line 191), validate it (line 194), run `seq_workflow` on the single
sequence with its length (lines 219-223), and scan the same uppercased
sequence for regex motifs (line 246).  The filter block at lines 228-237 is
guarded by `len(df) > 0` and `seq_workflow` either raises or returns an
empty frame, so the block never acts — and had a non-empty frame reached
line 235, its own `df['Start']` lookup would raise the `KeyError` that line
236's handler catches, leaving the frame unchanged; either way the ortholog
frame passes through as `seq_workflow` produced it. -/
def elm_sequence_mode (instances : List MotifInstanceRow)
    (classes : List MotifClassRow)
    (diamondOut : String → Option (List DiamondRow)) (s : String) : ElmSeqResult :=
  let sequence := pyUpper s
  { warned_invalid := !valid_sequence sequence
    orthologs :=
      seq_workflow [sequence] [(sequence.length : Int)] diamondOut instances classes
    regex := regex_match classes instances sequence }

/-! ## Temporary FASTA paths (lines 88-93)

Line 90 writes the sequence to `tmp{uuid4()}.fa`, a relative path in the
working directory.  Line 93 invokes DIAMOND on
`f"{os.getcwd()}tmp{uuid4()}.fa"` — a *second* freshly drawn UUID, and the
working directory concatenated with no path separator. -/

/-- Line 90: the relative name of the FASTA file actually written. -/
def written_fasta_name (u : String) : String := "tmp" ++ u ++ ".fa"

/-- Line 93: the path handed to the DIAMOND invocation. -/
def diamond_query_path (cwd u : String) : String := cwd ++ "tmp" ++ u ++ ".fa"

/-- POSIX resolution of a relative path against a working directory with no
trailing separator (what `os.getcwd()` returns outside the root). -/
def resolve_relative (cwd p : String) : String := cwd ++ "/" ++ p

/-! ## Concrete test data -/

/-- A motif class whose pattern is the spec's example `P..P`. -/
def clsPP : MotifClassRow :=
  ⟨"ELME000001", "CLV_TEST_1", "site1", "desc1", "P..P", "0.001"⟩

/-- A second motif class whose pattern `X` also matches the example
sequence. -/
def clsX : MotifClassRow :=
  ⟨"ELME000002", "CLV_TEST_2", "site2", "desc2", "X", "0.002"⟩

/-- A demonstration instance row. -/
def demoInstance : MotifInstanceRow :=
  ⟨"Q9UI36", "Q9UI36 P00001", "ELM_ID_1", 5, 9, "method", "prot", "org"⟩

/-- An ortholog row strictly inside its own window. -/
def wOrthoRow : OrthoRow := ⟨"P22222", "ELM_ID_1", 6, 9, some 5, some 10⟩

/-- A UniProt service response row for the fallback scenario. -/
def wUniRow : UniProtSeqRow := ⟨"P12345", "MPAAPK", 6⟩

/-- A DIAMOND hit whose target accession carries `Q9UI36` between the first
two pipes, so `get_elm_instances` selects `demoInstance`. -/
def demoHit : DiamondRow :=
  ⟨"query1", "sp|Q9UI36|DACH1_HUMAN", 97, 40, 1, 0, 1, 40, 5, 44, "1e-20", "80"⟩

end GgetElm

namespace GgetElm

/-! # Theorems -/

/-! ## Helper lemmas -/

theorem pyUpperChar_idem (c : Char) : pyUpperChar (pyUpperChar c) = pyUpperChar c := by
  have key : ∀ p ∈ lowerUpperPairs, ∀ q ∈ lowerUpperPairs, (q.1 == p.2) = false := by
    decide
  cases hf : lowerUpperPairs.find? (fun p => p.1 == c) with
  | none =>
    have h1 : pyUpperChar c = c := by simp [pyUpperChar, hf]
    simp only [h1]
  | some p =>
    have hp : p ∈ lowerUpperPairs := List.mem_of_find?_eq_some hf
    have h1 : pyUpperChar c = p.2 := by simp [pyUpperChar, hf]
    have h2 : lowerUpperPairs.find? (fun q => q.1 == p.2) = none := by
      rw [List.find?_eq_none]
      intro q hq
      simp [key p hp q hq]
    have h3 : pyUpperChar p.2 = p.2 := by simp [pyUpperChar, h2]
    rw [h1, h3]

theorem pyUpper_idem (s : String) : pyUpper (pyUpper s) = pyUpper s := by
  show String.mk ((s.data.map pyUpperChar).map pyUpperChar)
      = String.mk (s.data.map pyUpperChar)
  rw [List.map_map]
  exact congrArg String.mk (List.map_congr_left (fun a _ => pyUpperChar_idem a))

theorem mem_left_join_classes {classes : List MotifClassRow} {r r' : MotifInstanceRow}
    {oc : Option MotifClassRow} :
    (r', oc) ∈ left_join_classes classes r ↔
      (r' = r ∧
        ((oc = none ∧
            classes.filter (fun c => c.elmIdentifier == r.elmIdentifier) = []) ∨
         (∃ c, oc = some c ∧
            c ∈ classes.filter (fun c => c.elmIdentifier == r.elmIdentifier)))) := by
  unfold left_join_classes
  cases hf : classes.filter (fun c => c.elmIdentifier == r.elmIdentifier) with
  | nil => simp [hf]
  | cons c0 cs =>
    simp only [hf, List.mem_map, List.mem_cons]
    constructor
    · rintro ⟨c, hc, heq⟩
      obtain ⟨h1, h2⟩ := Prod.mk.injEq .. ▸ heq
      exact ⟨h1.symm, Or.inr ⟨c, h2.symm, hc⟩⟩
    · rintro ⟨rfl, (⟨hnone, hfalse⟩ | ⟨c, rfl, hc⟩)⟩
      · exact absurd hfalse (by simp)
      · exact ⟨c, hc, rfl⟩

theorem left_join_classes_self_mem (classes : List MotifClassRow)
    (r : MotifInstanceRow) : ∃ oc, (r, oc) ∈ left_join_classes classes r := by
  cases hf : classes.filter (fun c => c.elmIdentifier == r.elmIdentifier) with
  | nil => exact ⟨none, mem_left_join_classes.mpr ⟨rfl, Or.inl ⟨rfl, hf⟩⟩⟩
  | cons c0 cs =>
    exact ⟨some c0, mem_left_join_classes.mpr
      ⟨rfl, Or.inr ⟨c0, rfl, by rw [hf]; exact List.mem_cons_self c0 cs⟩⟩⟩

theorem fallback_aa_seqs_nil (table : List UniProtSeqRow) :
    fallback_aa_seqs table = [] := by
  have h : table.filter (fun r => pyValEq (.str r.uniprot_id) pyBuiltinId) = [] := by
    rw [List.filter_eq_nil_iff]
    intro r _
    simp [pyValEq, pyBuiltinId]
  rw [fallback_aa_seqs, h]
  rfl

theorem seq_workflow_go_ok_nil (diamondOut : String → Option (List DiamondRow))
    (instances : List MotifInstanceRow) (classes : List MotifClassRow) :
    ∀ (l : List (String × Int)) (rows : List ReindexedRow),
      seq_workflow_go diamondOut instances classes l = .ok rows → rows = [] := by
  intro l
  induction l with
  | nil =>
    intro rows h
    rw [seq_workflow_go] at h
    exact (Except.ok.inj h).symm
  | cons p rest ih =>
    intro rows h
    obtain ⟨seq, len⟩ := p
    rw [seq_workflow_go] at h
    split at h
    · simp at h
    · exact ih rows h
    · split at h
      · exact ih rows h
      · simp at h

/-! ## The claims -/

/-- Claim C1.  The claim says `regex_match` returns one result row per
`(pattern, match)` pair over all class patterns.  The code disagrees: the
loop reassigns `df_final` on every pair, so only the frame of the last
pair survives.  On sequence `XPAAPX` with class patterns `P..P` and `X`
there are three `(pattern, match)` pairs — `P..P` matching `PAAP` at the
0-based half-open span `(1, 5)` exactly once (the literally reproducible
part of the claim, which does hold of the scanner), and `X` matching at
`(0, 1)` and `(5, 6)` — yet the returned frame holds a single row, built
from the last pair only (`X` at `(5, 6)`). -/
theorem regex_match_keeps_only_last_match :
    finditer "P..P" "XPAAPX" = [(1, 5)] ∧
    sliceStr "XPAAPX" 1 5 = "PAAP" ∧
    finditer "X" "XPAAPX" = [(0, 1), (5, 6)] ∧
    regex_match [clsPP, clsX] [] "XPAAPX" = some [⟨clsX, "X", none⟩] :=
  ⟨by decide, by decide, by decide, by decide⟩

/-- Claim C2.  The claim says sequence mode discards exactly the rows whose
span does not lie within the first hit's window, keeping only
`motif_in_query` rows.  The code disagrees: lines 67-68 rename the instance
coordinates to `Start`/`End`, but line 80's `change_column` lists
`Start in ortholog`/`End in ortholog` and not `Start`/`End`, so line 81's
reindex drops the coordinate columns.  Line 115's `apply(motif_in_query)`
then raises `KeyError: 'Start'` on every non-empty merged frame — crashing
`seq_workflow` before the filter — and otherwise the frame is empty and the
`len(df) > 0` guard skips the lines 228-237 block (whose own `df['Start']`
would raise the `KeyError` line 236 catches, leaving the frame unchanged).
The filtering step therefore never discards any row: the two schema facts
below are read off the transcribed `change_column`, the evaluation shows
the crash at a concrete input whose ortholog frame has a row, and the final
conjunct shows every non-crashing run returns an empty ortholog frame, so
no row is ever retained or discarded. -/
theorem elm_filter_never_discards :
    "Start" ∉ change_column ∧
    "End" ∉ change_column ∧
    ("Start in ortholog" ∈ change_column ∧ "End in ortholog" ∈ change_column) ∧
    seq_workflow ["MKLPW"] [5] (fun _ => some [demoHit]) [demoInstance] [] =
      .error "KeyError: Start" ∧
    (∀ (diamondOut : String → Option (List DiamondRow))
        (instances : List MotifInstanceRow) (classes : List MotifClassRow)
        (sequences : List String) (lens : List Int) (rows : List ReindexedRow),
        seq_workflow sequences lens diamondOut instances classes = .ok rows →
        rows = []) := by
  refine ⟨by decide, by decide, by decide, rfl, ?_⟩
  intro diamondOut instances classes sequences lens rows h
  exact seq_workflow_go_ok_nil diamondOut instances classes
    (sequences.zip lens) rows h

/-- Claim C3.  For every ortholog row whose alignment-window columns carry
values (are not `NaN`), the derived boolean `motif_in_query` is `true` iff
the instance's `Start` is at least the hit's `target_start` and the
instance's `End` is at most the hit's `target_end`. -/
theorem motif_in_query_iff (r : OrthoRow) (ts te : Int)
    (hts : r.target_start = some ts) (hte : r.target_end = some te) :
    motif_in_query r = true ↔ (r.start ≥ ts ∧ r.end_ ≤ te) := by
  simp [motif_in_query, geOptB, leOptB, hts, hte]

/-- Claim C3, witness: a concrete contained row evaluates to `true`. -/
theorem motif_in_query_iff_witness : motif_in_query wOrthoRow = true :=
  (motif_in_query_iff wOrthoRow 5 10 rfl rfl).mpr (by decide)

/-- Claim C4.  The claim says zero alignment hits leave the ortholog output
empty with no failure propagating.  The code disagrees: a zero-hit DIAMOND
run leaves `diamond_out.tsv` empty, `tsv_to_df` logs a warning and returns
`None`, and line 97's `len(df_diamond)` then raises a `TypeError` that
propagates out of `seq_workflow`, modelled here as the `Except.error`
value. -/
theorem seq_workflow_zero_hits_typeerror :
    seq_workflow ["MSEQR"] [5] (fun _ => none) [demoInstance] [] =
      .error "TypeError: object of type NoneType has no len" := rfl

/-- Claim C5.  The claim says the fallback re-attempts motif resolution
using the retrieved sequence.  The code does call the service exactly once
with the input identifier, but line 211 filters the response with
`uniprot_id == id` — `id` being the Python builtin function — so the
selected sequence list is empty and the re-attempted workflow processes no
sequence at all, whatever the service returned and whatever DIAMOND would
answer. -/
theorem elm_uniprot_fallback_unused_sequence (ident : String)
    (instances : List MotifInstanceRow) (classes : List MotifClassRow)
    (uniprotService : String → List UniProtSeqRow)
    (diamondOut : String → Option (List DiamondRow))
    (h : get_elm_instances ident instances classes = []) :
    (elm_uniprot_mode ident instances classes uniprotService diamondOut).service_calls
        = [ident] ∧
    (elm_uniprot_mode ident instances classes uniprotService diamondOut).workflow_rows
        = .ok [] := by
  simp [elm_uniprot_mode, h, fallback_aa_seqs_nil, seq_workflow, seq_workflow_go]

/-- Claim C5, witness: identifier `P12345`, an empty local instance table,
a service holding the sequence — the service is called once with `P12345`
and the re-attempt still produces nothing. -/
theorem elm_uniprot_fallback_unused_sequence_witness :
    (elm_uniprot_mode "P12345" [] [] (fun _ => [wUniRow])
        (fun _ => some [])).service_calls = ["P12345"] ∧
    (elm_uniprot_mode "P12345" [] [] (fun _ => [wUniRow])
        (fun _ => some [])).workflow_rows = .ok [] :=
  elm_uniprot_fallback_unused_sequence "P12345" [] [] (fun _ => [wUniRow])
    (fun _ => some []) rfl

/-- Claim C6.  The claim says a sequence matching no motif pattern is not
an error.  The code disagrees: when no pattern matched, the loop never
assigned `df_final`, and line 167 (`df_final.rename`) raises
`UnboundLocalError` — modelled as the scanner returning `none` instead of
an empty frame.  Sequence `AAA` matches pattern `P..P` nowhere. -/
theorem regex_match_no_match_unbound :
    regex_match [clsPP] [] "AAA" = none ∧ finditer "P..P" "AAA" = [] :=
  ⟨by decide, by decide⟩

/-- Claim C7.  `get_elm_instances` holds a row for an instance iff the
instance is in the table and its `Accessions` field contains the target
accession as a substring; every class attached to a row shares the
instance's ELM identifier and comes from the class table; and an instance
with no matching class row is still kept, paired with a missing class
side (the left join). -/
theorem get_elm_instances_spec (uid : String) (instances : List MotifInstanceRow)
    (classes : List MotifClassRow) (inst : MotifInstanceRow) :
    ((∃ oc, (inst, oc) ∈ get_elm_instances uid instances classes) ↔
       inst ∈ instances ∧ uid.data <:+: inst.accessions.data) ∧
    (∀ c : MotifClassRow, (inst, some c) ∈ get_elm_instances uid instances classes →
       c ∈ classes ∧ c.elmIdentifier = inst.elmIdentifier) ∧
    (inst ∈ instances → uid.data <:+: inst.accessions.data →
      (∀ c ∈ classes, c.elmIdentifier ≠ inst.elmIdentifier) →
      (inst, none) ∈ get_elm_instances uid instances classes) := by
  refine ⟨⟨?_, ?_⟩, ?_, ?_⟩
  · rintro ⟨oc, hmem⟩
    rw [get_elm_instances, List.mem_flatMap] at hmem
    obtain ⟨r, hr, hjoin⟩ := hmem
    obtain ⟨rfl, -⟩ := mem_left_join_classes.mp hjoin
    rw [List.mem_filter] at hr
    refine ⟨hr.1, ?_⟩
    have h2 := hr.2
    simp only [strContains, decide_eq_true_eq] at h2
    exact h2
  · rintro ⟨hmem, hinf⟩
    obtain ⟨oc, hoc⟩ := left_join_classes_self_mem classes inst
    refine ⟨oc, ?_⟩
    rw [get_elm_instances, List.mem_flatMap]
    refine ⟨inst, List.mem_filter.mpr ⟨hmem, ?_⟩, hoc⟩
    simp only [strContains, decide_eq_true_eq]
    exact hinf
  · intro c hc
    rw [get_elm_instances, List.mem_flatMap] at hc
    obtain ⟨r, hr, hjoin⟩ := hc
    obtain ⟨rfl, hrest⟩ := mem_left_join_classes.mp hjoin
    rcases hrest with ⟨hnone, -⟩ | ⟨c2, hsome, hc2⟩
    · exact absurd hnone (by simp)
    · obtain rfl := (Option.some.inj hsome).symm
      rw [List.mem_filter] at hc2
      refine ⟨hc2.1, ?_⟩
      have := hc2.2
      simpa using this
  · intro h1 h2 h3
    rw [get_elm_instances, List.mem_flatMap]
    refine ⟨inst, List.mem_filter.mpr ⟨h1, ?_⟩, ?_⟩
    · simp only [strContains, decide_eq_true_eq]
      exact h2
    · refine mem_left_join_classes.mpr ⟨rfl, Or.inl ⟨rfl, ?_⟩⟩
      rw [List.filter_eq_nil_iff]
      intro c hc
      simpa using h3 c hc

/-- Claim C8.  The claim says that when persistence is requested and a
result set is non-empty, two files `ortholog.*` / `regex.*` with a `.csv`
or `.json` extension land in the target directory, created beforehand if
absent.  The code disagrees: with the directory absent the first `to_csv`
raises `OSError`, the handler creates the directory and the writes are
never retried, so no file is written; with the directory present the files
are named `ortholog` and `regex_match`, with no extension at all. -/
theorem elm_persist_csv_eval :
    elm_persist_csv "/work" (some "results") false 1 1 = ([], ["/work/results"]) ∧
    elm_persist_csv "/work" (some "results") true 1 1 =
      (["/work/results/ortholog", "/work/results/regex_match"], []) :=
  ⟨rfl, rfl⟩

/-- Claim C9.  Sequence mode is invariant under the letter case of the
input: the orchestrator uppercases the sequence on line 191 before
validation, alignment and regex scanning, and uppercasing is idempotent, so
`elm` on `s` and on `s.upper()` produce the same result. -/
theorem elm_sequence_mode_case_invariant (instances : List MotifInstanceRow)
    (classes : List MotifClassRow) (diamondOut : String → Option (List DiamondRow))
    (s : String) :
    elm_sequence_mode instances classes diamondOut s =
      elm_sequence_mode instances classes diamondOut (pyUpper s) := by
  simp only [elm_sequence_mode, pyUpper_idem]

/-- Claim C10.  The path handed to the DIAMOND invocation concatenates the
working directory, `tmp`, a freshly drawn UUID and `.fa` with no path
separator; the file actually written is `tmp{other uuid}.fa` relative to
the working directory.  For any two (distinct) draws of canonical 36-character
UUID strings the two paths differ — the invocation path is one character
shorter than the resolved path of the written file, missing the
separator. -/
theorem diamond_path_distinct_from_written (cwd u1 u2 : String)
    (h1 : u1.length = 36) (h2 : u2.length = 36) (hne : u1 ≠ u2) :
    diamond_query_path cwd u2 ≠ resolve_relative cwd (written_fasta_name u1) := by
  intro h
  have hlen := congrArg String.length h
  simp only [diamond_query_path, resolve_relative, written_fasta_name,
    String.length_append] at hlen
  have t3 : ("tmp" : String).length = 3 := rfl
  have f3 : (".fa" : String).length = 3 := rfl
  have s1 : ("/" : String).length = 1 := rfl
  rw [t3, f3, s1, h1, h2] at hlen
  omega

/-- Claim C10, witness: two concrete distinct UUID strings. -/
theorem diamond_path_distinct_from_written_witness :
    diamond_query_path "/work" "00000000-0000-4000-8000-000000000002" ≠
      resolve_relative "/work"
        (written_fasta_name "00000000-0000-4000-8000-000000000001") :=
  diamond_path_distinct_from_written "/work" "00000000-0000-4000-8000-000000000001"
    "00000000-0000-4000-8000-000000000002" (by decide) (by decide) (by decide)

end GgetElm
